import Mathlib

/-!
Shallow embedding of the Open-Soundtouch device-control engine.

The embedding models the HTTP/XML client (`soundtouch_lib.py`:
`SoundTouchController`, `SoundTouchDiscovery`), the push-notification
decoder (`soundtouch_websocket.py`: `SoundTouchWebSocket`) and the
playlist/progress logic of the media player (`gui_media_player.py`).

Network interaction is made explicit: every operation that performs HTTP
calls takes the outcome(s) of those calls as an argument and returns,
alongside its result, the list of requests it issued, so that `fail fast
(no request sent)` properties are directly observable.
-/

/-- A parsed XML element in the style of `xml.etree.ElementTree`:
tag, attribute list, optional text, child elements. -/
inductive Xml where
  | elem (tag : String) (attrs : List (String × String)) (text : Option String)
      (children : List Xml)

/-- The tag of an element. -/
def Xml.tag : Xml → String
  | .elem t _ _ _ => t

/-- The attribute list of an element. -/
def Xml.attrs : Xml → List (String × String)
  | .elem _ a _ _ => a

/-- The text content of an element (`Element.text`, may be absent). -/
def Xml.text : Xml → Option String
  | .elem _ _ tx _ => tx

/-- The direct children of an element. -/
def Xml.children : Xml → List Xml
  | .elem _ _ _ cs => cs

mutual

/-- The number of elements in an XML tree (used as a recursion budget). -/
def Xml.size : Xml → Nat
  | .elem _ _ _ cs => 1 + Xml.sizeList cs

/-- The total number of elements in a forest of XML trees. -/
def Xml.sizeList : List Xml → Nat
  | [] => 0
  | c :: cs => Xml.size c + Xml.sizeList cs

end

/-- `Element.get(name, default)`: attribute lookup with a default. -/
def Xml.get (x : Xml) (name default : String) : String :=
  match x.attrs.lookup name with
  | some v => v
  | none => default

/-- `Element.find(tag)`: the first direct child with the given tag. -/
def Xml.find (x : Xml) (t : String) : Option Xml :=
  x.children.find? (fun c => c.tag == t)

/-- `Element.findtext(tag, default)`: the text of the first matching child,
the empty string when that child has no text, else the default. -/
def Xml.findtext (x : Xml) (t default : String) : String :=
  match x.find t with
  | some c => c.text.getD ""
  | none => default

/-- `Element.findall(tag)`: all direct children with the given tag. -/
def Xml.findall (x : Xml) (t : String) : List Xml :=
  x.children.filter (fun c => c.tag == t)

/-- `Element.findall('a/b')`: the `b` children of each `a` child, in
document order. -/
def Xml.findallPath2 (x : Xml) (t1 t2 : String) : List Xml :=
  (x.findall t1).flatMap (fun c => c.findall t2)

/-- An HTTP request issued by the client: method, path and body. -/
structure HttpRequest where
  method : String
  path : String
  body : String
deriving Repr, DecidableEq

/-- The outcome of one HTTP call, as the client observes it.
`response status payload` is a completed response; `payload = none` means
the body did not parse as XML (`ET.fromstring` raises).  `readTimeout` is
`requests.exceptions.ReadTimeout`; `netError` is any other
connection-level exception. -/
inductive HttpOutcome where
  | response (status : Nat) (payload : Option Xml)
  | readTimeout
  | netError

/-- Python's `str.lower()` (ASCII case folding, which is all the source
relies on). -/
def pyLower (s : String) : String :=
  String.mk (s.data.map Char.toLower)

/-- Python's substring test `needle in hay`. -/
def strIn (needle hay : String) : Bool :=
  (List.range (hay.length + 1)).any fun i => ((hay.drop i).take needle.length) == needle

namespace SoundTouchController

/-- The `SoundTouchController.KEYS` table (lower-case key name to device
key value). -/
def KEYS : List (String × String) :=
  [("power", "POWER"), ("play", "PLAY"), ("pause", "PAUSE"), ("stop", "STOP"),
   ("next", "NEXT_TRACK"), ("next_track", "NEXT_TRACK"),
   ("previous", "PREV_TRACK"), ("prev", "PREV_TRACK"), ("prev_track", "PREV_TRACK"),
   ("mute", "MUTE"), ("volume_up", "VOLUME_UP"), ("vol_up", "VOLUME_UP"),
   ("volume_down", "VOLUME_DOWN"), ("vol_down", "VOLUME_DOWN"),
   ("preset1", "PRESET_1"), ("preset2", "PRESET_2"), ("preset3", "PRESET_3"),
   ("preset4", "PRESET_4"), ("preset5", "PRESET_5"), ("preset6", "PRESET_6"),
   ("thumbsup", "THUMBS_UP"), ("thumbsdown", "THUMBS_DOWN")]

/-- The key frame posted to `/key`:
`<key state="press|release" sender="...">KEY_VALUE</key>`. -/
def keyFrame (state sender key_value : String) : HttpRequest :=
  ⟨"POST", "/key", s!"<key state=\"{state}\" sender=\"{sender}\">{key_value}</key>"⟩

/-- Whether an HTTP outcome is a completed response with status 200. -/
def isOk200 : HttpOutcome → Bool
  | .response s _ => s == 200
  | _ => false

/-- `SoundTouchController.send_key`: look the key up case-insensitively in
`KEYS`; if unknown return `False` at once.  Otherwise post a `press` frame
and then a `release` frame to `/key`; a non-200 status or an exception on
the press aborts before the release is posted.  `net n` is the outcome of
the n-th request issued.  Returns the result and the issued requests in
order. -/
def send_key (key sender : String) (net : Nat → HttpOutcome) :
    Bool × List HttpRequest :=
  match List.lookup (pyLower key) KEYS with
  | none => (false, [])
  | some key_value =>
    let press := keyFrame "press" sender key_value
    let release := keyFrame "release" sender key_value
    match net 0 with
    | .response s0 _ =>
      if s0 = 200 then
        match net 1 with
        | .response s1 _ => (s1 == 200, [press, release])
        | _ => (false, [press, release])
      else (false, [press])
    | _ => (false, [press])

/-- `SoundTouchController.set_volume`: reject a level outside `[0, 100]`
before any request is built; otherwise post the volume body to `/volume`
and succeed exactly on status 200. -/
def set_volume (volume : Int) (mute : Bool) (net : HttpOutcome) :
    Bool × List HttpRequest :=
  if ¬ (0 ≤ volume ∧ volume ≤ 100) then (false, [])
  else
    let mute_str := if mute then "true" else "false"
    let req : HttpRequest := ⟨"POST", "/volume",
      s!"<volume><targetvolume>{volume}</targetvolume><muteenabled>{mute_str}</muteenabled></volume>"⟩
    match net with
    | .response s _ => (s == 200, [req])
    | _ => (false, [req])

/-- `SoundTouchController.set_bass`: posts `<bass>LEVEL</bass>` to `/bass`
unconditionally (the source performs no range check) and succeeds exactly
on status 200. -/
def set_bass (bass : Int) (net : HttpOutcome) : Bool × List HttpRequest :=
  let req : HttpRequest := ⟨"POST", "/bass", s!"<bass>{bass}</bass>"⟩
  match net with
  | .response s _ => (s == 200, [req])
  | _ => (false, [req])

/-- One entry of the `/sources` listing. -/
structure SourceItem where
  source : String
  sourceAccount : String
  status : String
  name : String
deriving Repr, DecidableEq

/-- The list of sources parsed from a `/sources` response body
(`get_sources` loop over `sourceItem` elements). -/
def parse_sources_list (root : Xml) : List SourceItem :=
  (root.findall "sourceItem").map fun item =>
    { source := item.get "source" "", sourceAccount := item.get "sourceAccount" "",
      status := item.get "status" "", name := item.text.getD "" }

/-- `SoundTouchController.get_sources`: on a 200 response with parseable
XML, collect the `sourceItem` entries; an empty collection, any other
status, unparseable XML or a network error all yield `none`. -/
def get_sources (net : HttpOutcome) : Option (List SourceItem) :=
  match net with
  | .response status (some root) =>
    if status = 200 then
      let sources := parse_sources_list root
      if sources.isEmpty then none else some sources
    else none
  | _ => none

/-- One entry of the `/presets` listing. -/
structure Preset where
  id : String
  source : String
  sourceAccount : String
  itemName : String
deriving Repr, DecidableEq

/-- The list of presets parsed from a `/presets` response body
(`get_presets` loop: a `preset` element without a `ContentItem` child is
skipped). -/
def parse_presets_list (root : Xml) : List Preset :=
  (root.findall "preset").filterMap fun preset =>
    match preset.find "ContentItem" with
    | some item =>
      some ⟨preset.get "id" "", item.get "source" "", item.get "sourceAccount" "",
        item.findtext "itemName" ""⟩
    | none => none

/-- `SoundTouchController.get_presets`: on a 200 response with parseable
XML, collect the presets; an empty collection, any other status,
unparseable XML or a network error all yield `none`. -/
def get_presets (net : HttpOutcome) : Option (List Preset) :=
  match net with
  | .response status (some root) =>
    if status = 200 then
      let presets := parse_presets_list root
      if presets.isEmpty then none else some presets
    else none
  | _ => none

/-- The security-type normalization table of `add_wireless_profile`. -/
def sec_map : List (String × String) :=
  [("open", "none"), ("wpa2", "wpa2aes"), ("wpa", "wpatkip")]

/-- Normalize a security type to the device enum:
`sec_map.get(security_type.lower(), security_type)`. -/
def normalize_security (security_type : String) : String :=
  (List.lookup (pyLower security_type) sec_map).getD security_type

/-- Attribute-value escaping as performed by `ElementTree` serialization. -/
def xmlAttrEscape (s : String) : String :=
  (((s.replace "&" "&amp;").replace "<" "&lt;").replace ">" "&gt;").replace "\"" "&quot;"

/-- The body posted to `/addWirelessProfile`
(`<AddWirelessProfile timeout="..."><profile .../></AddWirelessProfile>`). -/
def addWirelessProfileXml (timeout_secs : Int) (ssid password security_value : String) :
    String :=
  s!"<AddWirelessProfile timeout=\"{timeout_secs}\"><profile ssid=\"{xmlAttrEscape ssid}\" password=\"{xmlAttrEscape password}\" securityType=\"{xmlAttrEscape security_value}\" /></AddWirelessProfile>"

/-- `SoundTouchController.add_wireless_profile`: clamp the timeout,
normalize the security type, reject an empty SSID or a missing password
(password not required when the normalized security is `none`) before any
request; otherwise post the profile and accept any 2xx status.  A read
timeout while awaiting the response — the device entering standby after
accepting the profile — is treated as success, as is any other exception
raised after the config was sent. -/
def add_wireless_profile (ssid password security_type : String) (timeout_secs : Int)
    (net : HttpOutcome) : Bool × List HttpRequest :=
  let timeout_secs := if timeout_secs < 5 ∨ timeout_secs > 60 then (30 : Int) else timeout_secs
  let security_value := normalize_security security_type
  if ssid = "" ∨ (security_value ≠ "none" ∧ password = "") then (false, [])
  else
    let req : HttpRequest := ⟨"POST", "/addWirelessProfile",
      addWirelessProfileXml timeout_secs ssid password security_value⟩
    match net with
    | .response s _ => (decide (200 ≤ s ∧ s < 300), [req])
    | .readTimeout => (true, [req])
    | .netError => (true, [req])

end SoundTouchController

namespace SoundTouchDiscovery

/-- One firmware component record of a device `/info` payload. -/
structure Component where
  category : String
  version : String
  serialNumber : String
deriving Repr, DecidableEq

/-- A discovered device, as built by `_parse_info_response`. -/
structure DeviceInfo where
  name : String
  type : String
  ip : String
  mac : String
  deviceID : String
  margeAccount : String
  components : List Component
  url : String
deriving Repr

/-- Whether a string mentions the vendor
(`'soundtouch' in s.lower() or 'bose' in s.lower()`). -/
def vendorRef (s : String) : Bool :=
  strIn "soundtouch" (pyLower s) || strIn "bose" (pyLower s)

/-- `SoundTouchDiscovery._is_soundtouch_device`: the device type mentions
the vendor, or a `margeAccountUUID` element is present. -/
def is_soundtouch_device (device_type : String) (root : Xml) : Bool :=
  vendorRef device_type || (root.find "margeAccountUUID").isSome

/-- `SoundTouchDiscovery._parse_info_response`: `none` when the body is
not parseable XML or the payload fails the device-signature check,
otherwise the extracted device record. -/
def parse_info_response (payload : Option Xml) (ip port : String) : Option DeviceInfo :=
  match payload with
  | none => none
  | some root =>
    let name := root.findtext "name" "Unknown"
    let device_type := root.findtext "type" "Unknown"
    let device_id := root.get "deviceID" "Unknown"
    let marge_account := root.findtext "margeAccountUUID" ""
    let mac_address := match root.find "networkInfo" with
      | some ni => ni.findtext "macAddress" "Unknown"
      | none => "Unknown"
    let components := ((root.findallPath2 "components" "component").map fun c =>
        ({ category := c.findtext "componentCategory" "",
           version := c.findtext "softwareVersion" "",
           serialNumber := c.findtext "serialNumber" "" } : Component)).filter
      (fun cd => cd.category ≠ "")
    if is_soundtouch_device device_type root then
      some { name := name, type := device_type, ip := ip, mac := mac_address,
             deviceID := device_id, margeAccount := marge_account,
             components := components, url := s!"http://{ip}:{port}" }
    else none

/-- `SoundTouchDiscovery._scan_host`: probe one host with a GET of
`/info`; only a 200 response whose payload passes `_parse_info_response`
contributes a device; every error, timeout, non-200 status or rejected
payload contributes nothing (the exception is swallowed). -/
def scan_host (net : HttpOutcome) (ip port : String) : Option DeviceInfo :=
  match net with
  | .response status payload =>
    if status = 200 then parse_info_response payload ip port else none
  | _ => none

/-- The shared result list built by `scan`: each probe appends its device
(if any) under the writer lock, so the final list is the in-order
concatenation of the successful probes. -/
def scan (probes : List (HttpOutcome × String)) (port : String) : List DeviceInfo :=
  probes.filterMap fun p => scan_host p.1 p.2 port

end SoundTouchDiscovery

namespace SoundTouchWebSocket

/-- A Python-dict value appearing in a decoded notification field. -/
inductive PVal where
  | s (v : String)
  | i (v : Int)
  | b (v : Bool)
deriving Repr, DecidableEq

/-- A decoded notification: its type tag, scalar fields, the originating
device identifier (added when the event arrived inside an `updates`
wrapper), and — for the aggregated `multipleUpdates` case — the child
notifications. -/
inductive Notification where
  | mk (ntype : String) (fields : List (String × PVal)) (deviceID : Option String)
      (updates : List Notification)

/-- The type tag of a notification. -/
def Notification.ntype : Notification → String
  | .mk t _ _ _ => t

/-- The scalar fields of a notification. -/
def Notification.fields : Notification → List (String × PVal)
  | .mk _ f _ _ => f

/-- The originating device identifier of a notification. -/
def Notification.deviceID : Notification → Option String
  | .mk _ _ d _ => d

/-- The aggregated child notifications (`multipleUpdates` only). -/
def Notification.updates : Notification → List Notification
  | .mk _ _ _ u => u

/-- Tag a notification with the originating device identifier
(`child_notification['deviceID'] = device_id`). -/
def Notification.setDeviceID : Notification → String → Notification
  | .mk t f _ u, d => .mk t f (some d) u

/-- The numeric value of a decimal digit character. -/
def digitVal (c : Char) : Option Nat :=
  if c.isDigit then some (c.toNat - 48) else none

/-- The natural number denoted by a non-empty string of decimal digits. -/
def parseDigits (cs : List Char) : Option Nat :=
  match cs with
  | [] => none
  | _ =>
    cs.foldl (fun acc? c =>
      match acc?, digitVal c with
      | some acc, some d => some (acc * 10 + d)
      | _, _ => none) (some 0)

/-- Python's `int(...)` on a decoded text field: an optionally negated
digit string; anything else raises (`ValueError`), which aborts decoding
of the whole frame. -/
def pyInt (s : String) : Except Unit Int :=
  match s.data with
  | '-' :: rest =>
    match parseDigits rest with
    | some n => .ok (-(n : Int))
    | none => .error ()
  | cs =>
    match parseDigits cs with
    | some n => .ok ((n : Int))
    | none => .error ()

/-- `SoundTouchWebSocket._parse_now_playing`. -/
def parse_now_playing (root : Xml) : Notification :=
  let e := (root.find "nowPlaying").getD root
  .mk "nowPlayingUpdated"
    [("source", .s (e.get "source" (e.findtext "source" ""))),
     ("track", .s (e.findtext "track" "")),
     ("artist", .s (e.findtext "artist" "")),
     ("album", .s (e.findtext "album" "")),
     ("station", .s (e.findtext "station" ""))] none []

/-- `SoundTouchWebSocket._parse_volume` (integer fields may raise). -/
def parse_volume (root : Xml) : Except Unit Notification := do
  let e := (root.find "volume").getD root
  let av ← pyInt (e.findtext "actualvolume" "0")
  let tv ← pyInt (e.findtext "targetvolume" "0")
  pure (.mk "volumeUpdated"
    [("actualvolume", .i av), ("targetvolume", .i tv),
     ("muteenabled", .b (pyLower (e.findtext "muteenabled" "false") == "true"))] none [])

/-- `SoundTouchWebSocket._parse_bass` (integer fields may raise). -/
def parse_bass (root : Xml) : Except Unit Notification := do
  let e := (root.find "bass").getD root
  let ab ← pyInt (e.findtext "actualbass" "0")
  let tb ← pyInt (e.findtext "targetbass" "0")
  pure (.mk "bassUpdated" [("actualbass", .i ab), ("targetbass", .i tb)] none [])

/-- `SoundTouchWebSocket._parse_connection_status`. -/
def parse_connection_status (root : Xml) : Notification :=
  let status_text := match root.find "connectionStatus" with
    | some c => c.text.getD ""
    | none => root.findtext "connectionStatus" ""
  .mk "connectionStatusChanged" [("status", .s status_text)] none []

/-- `SoundTouchWebSocket._parse_zone`. -/
def parse_zone (root : Xml) : Notification :=
  let e := (root.find "zone").getD root
  .mk "zoneUpdated"
    [("master", .s (e.findtext "master" (e.get "master" ""))),
     ("members", .i ((e.findall "member").length : Int))] none []

/-- `SoundTouchWebSocket._parse_presets`. -/
def parse_presets (root : Xml) : Notification :=
  .mk "presetsUpdated" [("preset_count", .i ((root.findall "preset").length : Int))] none []

/-- The loop body of the `updates` branch of `_parse_notification`: decode
each child with the given decoder, skip children that decode to nothing,
tag each decoded child with the wrapper's device identifier, and keep
document order.  A child whose decoding raises aborts the whole frame. -/
def parse_children (pf : Xml → Except Unit (Option Notification)) (device_id : String) :
    List Xml → Except Unit (List Notification)
  | [] => .ok []
  | c :: rest =>
    match pf c with
    | .error e => .error e
    | .ok n? =>
      match parse_children pf device_id rest with
      | .error e => .error e
      | .ok rest' =>
        match n? with
        | some n => .ok (n.setDeviceID device_id :: rest')
        | none => .ok rest'

/-- `SoundTouchWebSocket._parse_notification`, with an explicit recursion
budget for the nested `updates` case (the budget only bounds nesting
depth; `parse_notification` below supplies one that is always enough). -/
def parse_notification_fuel : Nat → Xml → Except Unit (Option Notification)
  | 0, _ => .error ()
  | Nat.succ fuel, x =>
    match x with
    | .elem tag _ _ children =>
      if tag == "SoundTouchSdkInfo" then
        pure (some (.mk "SoundTouchSdkInfo"
          [("serverVersion", .s (x.get "serverVersion" "")),
           ("serverBuild", .s (x.get "serverBuild" ""))] none []))
      else if tag == "updates" then do
        let device_id := x.get "deviceID" ""
        let results ← parse_children (parse_notification_fuel fuel) device_id children
        match results with
        | [] => pure none
        | [r] => pure (some r)
        | _ => pure (some (.mk "multipleUpdates" [] (some device_id) results))
      else if tag == "connectionStateUpdated" then
        pure (some (.mk "connectionStateUpdated"
          [("state", .s (x.get "state" "")),
           ("up", .b (pyLower (x.get "up" "false") == "true")),
           ("signal", .s (x.get "signal" ""))] none []))
      else if tag == "userActivityUpdate" then
        pure (some (.mk "userActivityUpdate" [] none []))
      else if tag == "nowPlayingUpdated" then
        pure (some (parse_now_playing x))
      else if tag == "volumeUpdated" then do
        pure (some (← parse_volume x))
      else if tag == "bassUpdated" then do
        pure (some (← parse_bass x))
      else if tag == "connectionStatusChanged" then
        pure (some (parse_connection_status x))
      else if tag == "zoneUpdated" then
        pure (some (parse_zone x))
      else if tag == "presetsUpdated" then
        pure (some (parse_presets x))
      else
        pure none

/-- `SoundTouchWebSocket._parse_notification`: recursion depth is bounded
by the element's size, so the budget `Xml.size x` never runs out. -/
def parse_notification (x : Xml) : Except Unit (Option Notification) :=
  parse_notification_fuel (Xml.size x) x

/-- `SoundTouchWebSocket.on_message`: parse the frame (`none` models an
`ET.fromstring` failure; any exception is caught and drops the frame),
enqueue the decoded notification, and invoke the callback registered for
its type.  Returns the queue entries added and the event types for which
a callback was invoked. -/
def on_message (callbacks : List String) (message : Option Xml) :
    List Notification × List String :=
  match message with
  | none => ([], [])
  | some root =>
    match parse_notification root with
    | .error _ => ([], [])
    | .ok none => ([], [])
    | .ok (some n) =>
      ([n], if callbacks.contains n.ntype then [n.ntype] else [])

end SoundTouchWebSocket

namespace MediaPlayer

/-- A playlist entry (the player caches file dicts; only identity matters
here). -/
structure FileEntry where
  name : String
deriving Repr, DecidableEq, Inhabited

/-- The playlist-related state of the media player window. -/
structure PlayerState where
  playlist_cache : List FileEntry
  playlist_index : Int
  current_file : Option FileEntry
  hasController : Bool
deriving Repr, DecidableEq

/-- `play_next`: with an empty playlist or no connected controller, or
with at most one entry, log and return without touching the index or
streaming.  Otherwise advance the index circularly
(`(index + 1) % len`), select that entry and invoke `stream_to_device`.
The boolean reports whether `stream_to_device` was invoked. -/
def play_next (s : PlayerState) : PlayerState × Bool :=
  if s.playlist_cache = [] ∨ s.hasController = false then (s, false)
  else if s.playlist_cache.length ≤ 1 then (s, false)
  else
    let idx := (s.playlist_index + 1) % (s.playlist_cache.length : Int)
    let nf := s.playlist_cache.getD idx.toNat default
    ({ s with playlist_index := idx, current_file := some nf }, true)

/-- `play_previous`: only an empty playlist is rejected (the source has no
single-entry or controller guard here).  Otherwise step the index
circularly (`(index - 1) % len`), select that entry and invoke
`stream_to_device`. -/
def play_previous (s : PlayerState) : PlayerState × Bool :=
  if s.playlist_cache = [] then (s, false)
  else
    let idx := (s.playlist_index - 1) % (s.playlist_cache.length : Int)
    let pf := s.playlist_cache.getD idx.toNat default
    ({ s with playlist_index := idx, current_file := some pf }, true)

/-- The progress-tracking state of the media player: last values received
from a now-playing update, the timestamp of that update, and the position
currently shown on the progress slider.  Time is in integer
milliseconds. -/
structure TrackerState where
  current_play_status : Option String
  last_position_ms : Int
  last_duration_ms : Int
  last_update_time : Int
  displayed_position : Int
deriving Repr, DecidableEq

/-- `_interpolate_progress`: a timer tick at time `now_ms`.  Returns
without touching the slider unless the last known play status is
`PLAY_STATE` and the last known duration is positive; otherwise shows
`last_position_ms` plus the time elapsed since the last update, capped at
the duration. -/
def interpolate_progress (s : TrackerState) (now_ms : Int) : TrackerState :=
  if ¬ (s.current_play_status = some "PLAY_STATE") then s
  else if s.last_duration_ms ≤ 0 then s
  else
    let elapsed_ms := now_ms - s.last_update_time
    let interpolated := s.last_position_ms + elapsed_ms
    let interpolated :=
      if interpolated > s.last_duration_ms then s.last_duration_ms else interpolated
    { s with displayed_position := interpolated }

end MediaPlayer

/-- C1 counterexample: `set_bass` performs no range validation.  At level
9999 — outside any bass range (the volume analogue accepts only
`[0, 100]`) — the request is still posted to `/bass` and the call returns
`True` on a 200 response, contradicting `returns False with no request
sent`. -/
theorem c1_set_bass_no_validation_counterexample :
    (SoundTouchController.set_bass 9999 (.response 200 none)).1 = true ∧
    (SoundTouchController.set_bass 9999 (.response 200 none)).2 =
      [⟨"POST", "/bass", "<bass>9999</bass>"⟩] := by
  constructor <;> rfl

/-- C1 (amended): `set_volume` validates its range before issuing any
request and fails fast — a level outside `[0, 100]` returns `False` with
no request sent — but `set_bass` performs no range validation: it issues
exactly one request to `/bass` for every level and returns `True` exactly
when the response has status 200. -/
theorem c1_volume_validates_bass_sends (volume : Int) (mute : Bool) (bass : Int)
    (vnet bnet : HttpOutcome) (h : volume < 0 ∨ 100 < volume) :
    SoundTouchController.set_volume volume mute vnet = (false, []) ∧
    (SoundTouchController.set_bass bass bnet).2.length = 1 ∧
    ((SoundTouchController.set_bass bass bnet).1 = true ↔
      ∃ payload, bnet = HttpOutcome.response 200 payload) := by
  refine ⟨?_, ?_, ?_⟩
  · have hv : ¬ (0 ≤ volume ∧ volume ≤ 100) := by omega
    simp [SoundTouchController.set_volume, hv]
  · cases bnet <;> simp [SoundTouchController.set_bass]
  · cases bnet <;> simp [SoundTouchController.set_bass]

/-- C1 witness: volume 101 is rejected with no request; bass 0 issues a
request and succeeds on a 200 response. -/
theorem c1_volume_validates_bass_sends_witness :
    SoundTouchController.set_volume 101 false HttpOutcome.netError = (false, []) ∧
    (SoundTouchController.set_bass 0 (.response 200 none)).2.length = 1 ∧
    ((SoundTouchController.set_bass 0 (.response 200 none)).1 = true ↔
      ∃ payload, (HttpOutcome.response 200 none) = HttpOutcome.response 200 payload) :=
  c1_volume_validates_bass_sends 101 false 0 HttpOutcome.netError
    (.response 200 none) (Or.inr (by norm_num))

/-- C2: once validation passes, `add_wireless_profile` posts the profile
once; it returns `True` exactly on a 2xx status, returns `True` on a read
timeout while awaiting the response, and returns `False` on a non-2xx
status. -/
theorem c2_wireless_profile_response_handling (ssid password security_type : String)
    (timeout_secs : Int) (status : Nat) (payload : Option Xml)
    (hssid : ssid ≠ "")
    (hpw : SoundTouchController.normalize_security security_type = "none" ∨ password ≠ "") :
    ((SoundTouchController.add_wireless_profile ssid password security_type timeout_secs
        (.response status payload)).1 = true ↔ 200 ≤ status ∧ status < 300) ∧
    (SoundTouchController.add_wireless_profile ssid password security_type timeout_secs
        (.response status payload)).2.length = 1 ∧
    (SoundTouchController.add_wireless_profile ssid password security_type timeout_secs
        .readTimeout).1 = true ∧
    (SoundTouchController.add_wireless_profile ssid password security_type timeout_secs
        .readTimeout).2.length = 1 := by
  have hcond : ¬ (ssid = "" ∨
      (SoundTouchController.normalize_security security_type ≠ "none" ∧ password = "")) := by
    push_neg
    exact ⟨hssid, fun hne => hpw.resolve_left hne⟩
  refine ⟨?_, ?_, ?_, ?_⟩ <;>
    simp [SoundTouchController.add_wireless_profile, hcond]

/-- C2 witness: an open-network profile with an empty password, answered
with status 204, succeeds; the same profile succeeds on a read timeout. -/
theorem c2_wireless_profile_response_handling_witness :
    ((SoundTouchController.add_wireless_profile "HomeNet" "" "open" 30
        (.response 204 none)).1 = true ↔ 200 ≤ 204 ∧ 204 < 300) ∧
    (SoundTouchController.add_wireless_profile "HomeNet" "" "open" 30
        (.response 204 none)).2.length = 1 ∧
    (SoundTouchController.add_wireless_profile "HomeNet" "" "open" 30
        .readTimeout).1 = true ∧
    (SoundTouchController.add_wireless_profile "HomeNet" "" "open" 30
        .readTimeout).2.length = 1 :=
  c2_wireless_profile_response_handling "HomeNet" "" "open" 30 204 none
    (by decide) (Or.inl (by decide))

/-- C3: for a recognized key, `send_key` posts a press frame and then a
release frame to `/key`, in that order; it returns `True` exactly when
both calls return status 200, and when the press call fails (non-200 or
exception) it reports `False` without issuing the release call. -/
theorem c3_send_key_press_then_release (key sender key_value : String)
    (net : Nat → HttpOutcome)
    (h : List.lookup (pyLower key) SoundTouchController.KEYS = some key_value) :
    ((SoundTouchController.send_key key sender net).1 = true ↔
      SoundTouchController.isOk200 (net 0) = true ∧
      SoundTouchController.isOk200 (net 1) = true) ∧
    (SoundTouchController.isOk200 (net 0) = true →
      (SoundTouchController.send_key key sender net).2 =
        [SoundTouchController.keyFrame "press" sender key_value,
         SoundTouchController.keyFrame "release" sender key_value]) ∧
    (SoundTouchController.isOk200 (net 0) = false →
      SoundTouchController.send_key key sender net =
        (false, [SoundTouchController.keyFrame "press" sender key_value])) := by
  simp only [SoundTouchController.send_key, h]
  cases h0 : net 0 with
  | response s0 p0 =>
    by_cases hs0 : s0 = 200
    · subst hs0
      cases h1 : net 1 with
      | response s1 p1 =>
        simp [SoundTouchController.isOk200, h0, h1]
      | readTimeout => simp [SoundTouchController.isOk200, h0, h1]
      | netError => simp [SoundTouchController.isOk200, h0, h1]
    · simp [SoundTouchController.isOk200, h0, hs0]
  | readTimeout => simp [SoundTouchController.isOk200, h0]
  | netError => simp [SoundTouchController.isOk200, h0]

/-- C3 witness: the key `PLAY` (resolved case-insensitively) with both
calls answering 200 yields success and the press/release trace. -/
theorem c3_send_key_press_then_release_witness :
    ((SoundTouchController.send_key "PLAY" "Gabbo"
        (fun _ => .response 200 none)).1 = true ↔
      SoundTouchController.isOk200 (.response 200 none) = true ∧
      SoundTouchController.isOk200 (.response 200 none) = true) ∧
    (SoundTouchController.isOk200 (.response 200 none) = true →
      (SoundTouchController.send_key "PLAY" "Gabbo"
          (fun _ => .response 200 none)).2 =
        [SoundTouchController.keyFrame "press" "Gabbo" "PLAY",
         SoundTouchController.keyFrame "release" "Gabbo" "PLAY"]) ∧
    (SoundTouchController.isOk200 (.response 200 none) = false →
      SoundTouchController.send_key "PLAY" "Gabbo" (fun _ => .response 200 none) =
        (false, [SoundTouchController.keyFrame "press" "Gabbo" "PLAY"])) :=
  c3_send_key_press_then_release "PLAY" "Gabbo" "PLAY"
    (fun _ => .response 200 none) (by decide)

/-- C9: a key whose lower-case form is not in `KEYS` makes `send_key`
return `False` with no request issued, and key lookup is
case-insensitive: two keys with the same lower-case form behave
identically. -/
theorem c9_unknown_key_no_request (key sender : String) (net : Nat → HttpOutcome)
    (h : List.lookup (pyLower key) SoundTouchController.KEYS = none) :
    SoundTouchController.send_key key sender net = (false, []) ∧
    ∀ key₂ : String, pyLower key₂ = pyLower key →
      SoundTouchController.send_key key₂ sender net =
        SoundTouchController.send_key key sender net := by
  constructor
  · simp [SoundTouchController.send_key, h]
  · intro key₂ h₂
    simp only [SoundTouchController.send_key, h₂]

/-- C9 witness: the unrecognized key `guitar` is rejected with no request,
and `GUITAR` behaves the same as `guitar`. -/
theorem c9_unknown_key_no_request_witness :
    SoundTouchController.send_key "guitar" "Gabbo" (fun _ => .response 200 none) =
      (false, []) ∧
    SoundTouchController.send_key "GUITAR" "Gabbo" (fun _ => .response 200 none) =
      SoundTouchController.send_key "guitar" "Gabbo" (fun _ => .response 200 none) := by
  have h := c9_unknown_key_no_request "guitar" "Gabbo" (fun _ => .response 200 none)
    (by decide)
  exact ⟨h.1, h.2 "GUITAR" (by decide)⟩

/-- C10: a 200 response whose parsed source (resp. preset) list is empty
makes `get_sources` (resp. `get_presets`) return `none`, the same value
produced by a failed query (network error or read timeout). -/
theorem c10_empty_lists_indistinguishable (root₁ root₂ : Xml)
    (hs : SoundTouchController.parse_sources_list root₁ = [])
    (hp : SoundTouchController.parse_presets_list root₂ = []) :
    SoundTouchController.get_sources (.response 200 (some root₁)) = none ∧
    SoundTouchController.get_presets (.response 200 (some root₂)) = none ∧
    SoundTouchController.get_sources .netError = none ∧
    SoundTouchController.get_presets .netError = none ∧
    SoundTouchController.get_sources .readTimeout = none ∧
    SoundTouchController.get_presets .readTimeout = none := by
  refine ⟨?_, ?_, rfl, rfl, rfl, rfl⟩
  · simp [SoundTouchController.get_sources, hs]
  · simp [SoundTouchController.get_presets, hp]

/-- C10 witness: a `/sources` body with no `sourceItem` children and a
`/presets` body whose only `preset` lacks a `ContentItem` both yield
`none`, as do failed queries. -/
theorem c10_empty_lists_indistinguishable_witness :
    SoundTouchController.get_sources
      (.response 200 (some (.elem "sources" [] none []))) = none ∧
    SoundTouchController.get_presets
      (.response 200 (some (.elem "presets" [] none
        [.elem "preset" [("id", "1")] none []]))) = none ∧
    SoundTouchController.get_sources .netError = none ∧
    SoundTouchController.get_presets .netError = none ∧
    SoundTouchController.get_sources .readTimeout = none ∧
    SoundTouchController.get_presets .readTimeout = none :=
  c10_empty_lists_indistinguishable (.elem "sources" [] none [])
    (.elem "presets" [] none [.elem "preset" [("id", "1")] none []])
    rfl rfl

/-- C4: a probe answered with status 200 whose payload carries no vendor
signature — neither the device type nor the device name mentions the
vendor and no `margeAccountUUID` element is present — contributes no
device: removing it from the probe list leaves the scan result unchanged.
Probes that error out, time out, or return unparseable XML likewise
contribute nothing, and the scan never fails. -/
theorem c4_unsigned_payload_never_in_result (root : Xml) (ip port : String)
    (htype : SoundTouchDiscovery.vendorRef (root.findtext "type" "Unknown") = false)
    (_hname : SoundTouchDiscovery.vendorRef (root.findtext "name" "Unknown") = false)
    (hmarge : (root.find "margeAccountUUID").isSome = false) :
    SoundTouchDiscovery.scan_host (.response 200 (some root)) ip port = none ∧
    (∀ pre post : List (HttpOutcome × String),
      SoundTouchDiscovery.scan (pre ++ (HttpOutcome.response 200 (some root), ip) :: post)
          port =
        SoundTouchDiscovery.scan (pre ++ post) port) ∧
    SoundTouchDiscovery.scan_host .netError ip port = none ∧
    SoundTouchDiscovery.scan_host .readTimeout ip port = none ∧
    SoundTouchDiscovery.scan_host (.response 200 none) ip port = none := by
  have hsig : SoundTouchDiscovery.is_soundtouch_device
      (root.findtext "type" "Unknown") root = false := by
    simp [SoundTouchDiscovery.is_soundtouch_device, htype, hmarge]
  have hhost : SoundTouchDiscovery.scan_host (.response 200 (some root)) ip port = none := by
    simp [SoundTouchDiscovery.scan_host, SoundTouchDiscovery.parse_info_response, hsig]
  refine ⟨hhost, ?_, rfl, rfl, rfl⟩
  intro pre post
  simp [SoundTouchDiscovery.scan, List.filterMap_append, hhost]

/-- C4 witness: a 200 payload naming a third-party device is dropped and
removing that probe leaves the scan over a failing probe unchanged. -/
theorem c4_unsigned_payload_never_in_result_witness :
    SoundTouchDiscovery.scan_host
      (.response 200 (some (.elem "info" [("deviceID", "X")] none
        [.elem "name" [] (some "Kitchen Radio") [],
         .elem "type" [] (some "GenericSpeaker") []]))) "192.168.0.9" "8090" = none ∧
    SoundTouchDiscovery.scan
      [(HttpOutcome.netError, "192.168.0.8"),
       (HttpOutcome.response 200 (some (.elem "info" [("deviceID", "X")] none
         [.elem "name" [] (some "Kitchen Radio") [],
          .elem "type" [] (some "GenericSpeaker") []])), "192.168.0.9")] "8090" =
      SoundTouchDiscovery.scan [(HttpOutcome.netError, "192.168.0.8")] "8090" ∧
    SoundTouchDiscovery.scan_host .netError "192.168.0.9" "8090" = none ∧
    SoundTouchDiscovery.scan_host .readTimeout "192.168.0.9" "8090" = none ∧
    SoundTouchDiscovery.scan_host (.response 200 none) "192.168.0.9" "8090" = none := by
  have h := c4_unsigned_payload_never_in_result
    (.elem "info" [("deviceID", "X")] none
      [.elem "name" [] (some "Kitchen Radio") [],
       .elem "type" [] (some "GenericSpeaker") []]) "192.168.0.9" "8090"
    (by decide) (by decide) (by decide)
  exact ⟨h.1, h.2.1 [(HttpOutcome.netError, "192.168.0.8")] [], h.2.2.1, h.2.2.2.1, h.2.2.2.2⟩

/-- C8: `add_wireless_profile` with security type `open` (normalized to
the device enum `none`) and an empty password passes validation and posts
the profile; any security type that does not normalize to `none` combined
with an empty password, or an empty SSID, returns `False` with no request
sent. -/
theorem c8_wireless_profile_validation (ssid password security_type : String)
    (timeout_secs : Int) (net : HttpOutcome) (hssid : ssid ≠ "") :
    SoundTouchController.normalize_security "open" = "none" ∧
    (SoundTouchController.add_wireless_profile ssid "" "open" timeout_secs net).2.length
      = 1 ∧
    (SoundTouchController.normalize_security security_type ≠ "none" →
      SoundTouchController.add_wireless_profile ssid "" security_type timeout_secs net
        = (false, [])) ∧
    SoundTouchController.add_wireless_profile "" password security_type timeout_secs net
      = (false, []) := by
  refine ⟨by decide, ?_, ?_, ?_⟩
  · have hopen : SoundTouchController.normalize_security "open" = "none" := by decide
    cases net <;> simp [SoundTouchController.add_wireless_profile, hssid, hopen]
  · intro hne
    simp [SoundTouchController.add_wireless_profile, hne]
  · simp [SoundTouchController.add_wireless_profile]

/-- C8 witness: SSID `HomeNet` with security `open` and empty password is
sent; security `wpa2` with empty password, and an empty SSID, are
rejected with no request. -/
theorem c8_wireless_profile_validation_witness :
    SoundTouchController.normalize_security "open" = "none" ∧
    (SoundTouchController.add_wireless_profile "HomeNet" "" "open" 30
        .readTimeout).2.length = 1 ∧
    (SoundTouchController.normalize_security "wpa2" ≠ "none" →
      SoundTouchController.add_wireless_profile "HomeNet" "" "wpa2" 30 .readTimeout
        = (false, [])) ∧
    SoundTouchController.add_wireless_profile "" "secret" "wpa2" 30 .readTimeout
      = (false, []) :=
  c8_wireless_profile_validation "HomeNet" "secret" "wpa2" 30 .readTimeout (by decide)

/-- Helper: on a playing tracker with positive duration, the interpolation
step shows the last known position plus elapsed time, capped at the
duration. -/
theorem interpolate_progress_play (s : MediaPlayer.TrackerState) (now : Int)
    (h : s.current_play_status = some "PLAY_STATE") (hd : 0 < s.last_duration_ms) :
    (MediaPlayer.interpolate_progress s now).displayed_position =
      min (s.last_position_ms + (now - s.last_update_time)) s.last_duration_ms := by
  have hnd : ¬ s.last_duration_ms ≤ 0 := by omega
  simp only [MediaPlayer.interpolate_progress, h, hnd, not_true, if_neg, if_false,
    ite_false, not_not]
  split
  · simp only [min_def]
    split <;> omega
  · simp only [min_def]
    split <;> omega

/-- C6 counterexample: on a one-entry playlist, `play_previous` is not a
no-op — it recomputes the index (`(0 - 1) % 1 = 0`), re-selects the same
entry and invokes the streaming path, reporting success rather than
failure. -/
theorem c6_previous_single_entry_counterexample :
    MediaPlayer.play_previous
        { playlist_cache := [⟨"song"⟩], playlist_index := 0,
          current_file := none, hasController := true } =
      ({ playlist_cache := [⟨"song"⟩], playlist_index := 0,
         current_file := some ⟨"song"⟩, hasController := true }, true) := by
  decide

/-- C6 (amended): `play_next` navigates circularly
(`index = (index + 1) mod length`) and streams when the playlist has at
least two entries and a controller is connected, and is a failing no-op
with at most one entry or no controller; `play_previous` navigates
circularly (`index = (index - 1) mod length`) and streams whenever the
playlist is non-empty — including the single-entry case, where it
restarts the same entry — and is a failing no-op only on an empty
playlist. -/
theorem c6_navigation_amended (s₁ s₂ s₃ s₄ : MediaPlayer.PlayerState)
    (h₁ : 2 ≤ s₁.playlist_cache.length) (hc₁ : s₁.hasController = true)
    (h₂ : s₂.playlist_cache.length ≤ 1 ∨ s₂.hasController = false)
    (h₃ : 1 ≤ s₃.playlist_cache.length)
    (h₄ : s₄.playlist_cache.length = 0) :
    ((MediaPlayer.play_next s₁).1.playlist_index =
        (s₁.playlist_index + 1) % (s₁.playlist_cache.length : Int) ∧
      (MediaPlayer.play_next s₁).2 = true) ∧
    MediaPlayer.play_next s₂ = (s₂, false) ∧
    ((MediaPlayer.play_previous s₃).1.playlist_index =
        (s₃.playlist_index - 1) % (s₃.playlist_cache.length : Int) ∧
      (MediaPlayer.play_previous s₃).2 = true) ∧
    MediaPlayer.play_previous s₄ = (s₄, false) := by
  refine ⟨?_, ?_, ?_, ?_⟩
  · have hne : ¬ (s₁.playlist_cache = [] ∨ s₁.hasController = false) := by
      rintro (hnil | hf)
      · rw [hnil] at h₁; simp at h₁
      · rw [hc₁] at hf; exact absurd hf (by simp)
    have hlen : ¬ s₁.playlist_cache.length ≤ 1 := by omega
    simp [MediaPlayer.play_next, hne, hlen]
  · rcases h₂ with hlen | hf
    · by_cases hnil : s₂.playlist_cache = []
      · simp [MediaPlayer.play_next, hnil]
      · have : ¬ (s₂.playlist_cache = [] ∨ s₂.hasController = false) ∨
            (s₂.playlist_cache = [] ∨ s₂.hasController = false) := by tauto
        rcases this with hng | hg
        · simp [MediaPlayer.play_next, hng, hlen]
        · simp [MediaPlayer.play_next, hg]
    · simp [MediaPlayer.play_next, hf]
  · have hnil : ¬ s₃.playlist_cache = [] := by
      intro hnil; rw [hnil] at h₃; simp at h₃
    simp [MediaPlayer.play_previous, hnil]
  · have hnil : s₄.playlist_cache = [] := by
      cases hc : s₄.playlist_cache with
      | nil => rfl
      | cons a l => rw [hc] at h₄; simp at h₄
    simp [MediaPlayer.play_previous, hnil]

/-- C6 witness: a three-entry playlist advances from index 2 to 0; a
one-entry playlist makes `play_next` a failing no-op while
`play_previous` restarts the single entry; an empty playlist makes
`play_previous` a failing no-op. -/
theorem c6_navigation_amended_witness :
    ((MediaPlayer.play_next
        { playlist_cache := [⟨"a"⟩, ⟨"b"⟩, ⟨"c"⟩], playlist_index := 2,
          current_file := none, hasController := true }).1.playlist_index =
        (2 + 1) % ((3 : Nat) : Int) ∧
      (MediaPlayer.play_next
        { playlist_cache := [⟨"a"⟩, ⟨"b"⟩, ⟨"c"⟩], playlist_index := 2,
          current_file := none, hasController := true }).2 = true) ∧
    MediaPlayer.play_next
        { playlist_cache := [⟨"a"⟩], playlist_index := 0,
          current_file := none, hasController := true } =
      ({ playlist_cache := [⟨"a"⟩], playlist_index := 0,
         current_file := none, hasController := true }, false) ∧
    ((MediaPlayer.play_previous
        { playlist_cache := [⟨"a"⟩], playlist_index := 0,
          current_file := none, hasController := true }).1.playlist_index =
        (0 - 1) % ((1 : Nat) : Int) ∧
      (MediaPlayer.play_previous
        { playlist_cache := [⟨"a"⟩], playlist_index := 0,
          current_file := none, hasController := true }).2 = true) ∧
    MediaPlayer.play_previous
        { playlist_cache := [], playlist_index := 0,
          current_file := none, hasController := true } =
      ({ playlist_cache := [], playlist_index := 0,
         current_file := none, hasController := true }, false) :=
  c6_navigation_amended
    { playlist_cache := [⟨"a"⟩, ⟨"b"⟩, ⟨"c"⟩], playlist_index := 2,
      current_file := none, hasController := true }
    { playlist_cache := [⟨"a"⟩], playlist_index := 0,
      current_file := none, hasController := true }
    { playlist_cache := [⟨"a"⟩], playlist_index := 0,
      current_file := none, hasController := true }
    { playlist_cache := [], playlist_index := 0,
      current_file := none, hasController := true }
    (by decide) rfl (Or.inl (by decide)) (by decide) rfl

/-- C7 counterexample: while the play state is PLAY but the last known
duration is 0, the interpolation step leaves the displayed position
untouched (5000 here), whereas the claimed formula — position plus
elapsed time clamped above by the duration — would display 0. -/
theorem c7_play_zero_duration_counterexample :
    MediaPlayer.interpolate_progress
        { current_play_status := some "PLAY_STATE", last_position_ms := 5000,
          last_duration_ms := 0, last_update_time := 0, displayed_position := 5000 }
        1000 =
      { current_play_status := some "PLAY_STATE", last_position_ms := 5000,
        last_duration_ms := 0, last_update_time := 0, displayed_position := 5000 } ∧
    min ((5000 : Int) + (1000 - 0)) 0 = 0 := by
  constructor
  · decide
  · decide

/-- C7 (amended): an interpolation step leaves the state untouched while
the play status is not PLAY, and also while it is PLAY but the last known
duration is not positive; while the status is PLAY with positive
duration, the displayed position is the last known position plus the time
elapsed since the last update, clamped above by the duration — hence
monotonically non-decreasing in time between two consecutive updates. -/
theorem c7_interpolation_amended
    (s₁ : MediaPlayer.TrackerState) (now : Int)
    (h₁ : s₁.current_play_status ≠ some "PLAY_STATE")
    (s₂ : MediaPlayer.TrackerState) (now' : Int)
    (h₂ : s₂.current_play_status = some "PLAY_STATE") (h₂d : s₂.last_duration_ms ≤ 0)
    (s₃ : MediaPlayer.TrackerState) (now₁ now₂ : Int)
    (h₃ : s₃.current_play_status = some "PLAY_STATE") (h₃d : 0 < s₃.last_duration_ms)
    (hmono : now₁ ≤ now₂) :
    MediaPlayer.interpolate_progress s₁ now = s₁ ∧
    MediaPlayer.interpolate_progress s₂ now' = s₂ ∧
    (MediaPlayer.interpolate_progress s₃ now₁).displayed_position =
      min (s₃.last_position_ms + (now₁ - s₃.last_update_time)) s₃.last_duration_ms ∧
    (MediaPlayer.interpolate_progress s₃ now₁).displayed_position ≤
      (MediaPlayer.interpolate_progress s₃ now₂).displayed_position := by
  refine ⟨?_, ?_, interpolate_progress_play s₃ now₁ h₃ h₃d, ?_⟩
  · simp [MediaPlayer.interpolate_progress, h₁]
  · simp [MediaPlayer.interpolate_progress, h₂, h₂d]
  · rw [interpolate_progress_play s₃ now₁ h₃ h₃d,
      interpolate_progress_play s₃ now₂ h₃ h₃d]
    exact min_le_min (by omega) le_rfl

/-- C7 witness: a paused tracker is frozen; a playing tracker with zero
duration is frozen; a playing tracker with a one-minute duration shows
position plus elapsed time and does not move backwards between ticks. -/
theorem c7_interpolation_amended_witness :
    MediaPlayer.interpolate_progress
        { current_play_status := some "PAUSE_STATE", last_position_ms := 1000,
          last_duration_ms := 60000, last_update_time := 0, displayed_position := 1000 }
        500 =
      { current_play_status := some "PAUSE_STATE", last_position_ms := 1000,
        last_duration_ms := 60000, last_update_time := 0, displayed_position := 1000 } ∧
    MediaPlayer.interpolate_progress
        { current_play_status := some "PLAY_STATE", last_position_ms := 1000,
          last_duration_ms := 0, last_update_time := 0, displayed_position := 1000 }
        500 =
      { current_play_status := some "PLAY_STATE", last_position_ms := 1000,
        last_duration_ms := 0, last_update_time := 0, displayed_position := 1000 } ∧
    (MediaPlayer.interpolate_progress
        { current_play_status := some "PLAY_STATE", last_position_ms := 1000,
          last_duration_ms := 60000, last_update_time := 0, displayed_position := 1000 }
        500).displayed_position = min ((1000 : Int) + (500 - 0)) 60000 ∧
    (MediaPlayer.interpolate_progress
        { current_play_status := some "PLAY_STATE", last_position_ms := 1000,
          last_duration_ms := 60000, last_update_time := 0, displayed_position := 1000 }
        500).displayed_position ≤
      (MediaPlayer.interpolate_progress
        { current_play_status := some "PLAY_STATE", last_position_ms := 1000,
          last_duration_ms := 60000, last_update_time := 0, displayed_position := 1000 }
        800).displayed_position :=
  c7_interpolation_amended
    { current_play_status := some "PAUSE_STATE", last_position_ms := 1000,
      last_duration_ms := 60000, last_update_time := 0, displayed_position := 1000 }
    500 (by decide)
    { current_play_status := some "PLAY_STATE", last_position_ms := 1000,
      last_duration_ms := 0, last_update_time := 0, displayed_position := 1000 }
    500 rfl (by decide)
    { current_play_status := some "PLAY_STATE", last_position_ms := 1000,
      last_duration_ms := 60000, last_update_time := 0, displayed_position := 1000 }
    500 800 rfl (by decide) (by decide)

/-- Every XML element has positive size. -/
theorem Xml.size_pos (x : Xml) : 1 ≤ Xml.size x := by
  cases x with
  | elem t a tx cs => simp [Xml.size]

/-- The size of a forest member is bounded by the size of the forest. -/
theorem Xml.size_le_sizeList_of_mem {c : Xml} :
    ∀ {cs : List Xml}, c ∈ cs → Xml.size c ≤ Xml.sizeList cs := by
  intro cs h
  induction cs with
  | nil => cases h
  | cons a rest ih =>
    rcases List.mem_cons.mp h with rfl | hmem
    · simp [Xml.sizeList]
    · have := ih hmem
      simp [Xml.sizeList]
      omega

/-- Decoding the children of an `updates` wrapper only depends on the
decoder's behaviour on those children. -/
theorem parse_children_congr (pf₁ pf₂ : Xml → Except Unit (Option SoundTouchWebSocket.Notification))
    (d : String) :
    ∀ cs : List Xml, (∀ c ∈ cs, pf₁ c = pf₂ c) →
      SoundTouchWebSocket.parse_children pf₁ d cs =
        SoundTouchWebSocket.parse_children pf₂ d cs := by
  intro cs h
  induction cs with
  | nil => rfl
  | cons c rest ih =>
    have hc : pf₁ c = pf₂ c := h c (List.mem_cons_self c rest)
    have hrest := ih (fun c' hc' => h c' (List.mem_cons_of_mem c hc'))
    simp [SoundTouchWebSocket.parse_children, hc, hrest]

/-- Every notification produced by decoding the children of an `updates`
wrapper is tagged with the wrapper's device identifier. -/
theorem parse_children_tags (pf : Xml → Except Unit (Option SoundTouchWebSocket.Notification))
    (d : String) :
    ∀ (cs : List Xml) (rs : List SoundTouchWebSocket.Notification),
      SoundTouchWebSocket.parse_children pf d cs = .ok rs →
      ∀ n ∈ rs, n.deviceID = some d := by
  intro cs
  induction cs with
  | nil =>
    intro rs h n hn
    simp only [SoundTouchWebSocket.parse_children, Except.ok.injEq] at h
    subst h
    cases hn
  | cons c rest ih =>
    intro rs h n hn
    simp only [SoundTouchWebSocket.parse_children] at h
    cases hc : pf c with
    | error e => simp [hc] at h
    | ok n? =>
      simp only [hc] at h
      cases hr : SoundTouchWebSocket.parse_children pf d rest with
      | error e => simp [hr] at h
      | ok rest' =>
        simp only [hr] at h
        cases n? with
        | none =>
          simp only [Except.ok.injEq] at h
          subst h
          exact ih rest' hr n hn
        | some m =>
          simp only [Except.ok.injEq] at h
          subst h
          rcases List.mem_cons.mp hn with rfl | hmem
          · cases m with
            | mk t f dv u => rfl
          · exact ih rest' hr n hmem

/-- A recursion budget of at least the element's size decodes the element
exactly as `parse_notification` does. -/
theorem parse_notification_fuel_eq :
    ∀ (fuel : Nat) (x : Xml), Xml.size x ≤ fuel →
      SoundTouchWebSocket.parse_notification_fuel fuel x =
        SoundTouchWebSocket.parse_notification x := by
  intro fuel
  induction fuel using Nat.strong_induction_on with
  | _ fuel ih =>
    intro x hx
    cases fuel with
    | zero => exact absurd (le_trans (Xml.size_pos x) hx) (by omega)
    | succ f =>
      cases x with
      | elem tag attrs text children =>
        have hsz : Xml.size (Xml.elem tag attrs text children) =
            Xml.sizeList children + 1 := by
          simp [Xml.size]; omega
        have hchild : ∀ c ∈ children,
            SoundTouchWebSocket.parse_notification_fuel f c =
              SoundTouchWebSocket.parse_notification_fuel (Xml.sizeList children) c := by
          intro c hc
          have h1 : Xml.size c ≤ Xml.sizeList children :=
            Xml.size_le_sizeList_of_mem hc
          have h2 : Xml.sizeList children ≤ f := by
            rw [hsz] at hx; omega
          have e1 := ih f (by omega) c (le_trans h1 h2)
          have e2 := ih (Xml.sizeList children) (by omega) c h1
          rw [e1, e2]
        have hpc : ∀ d : String,
            SoundTouchWebSocket.parse_children
              (SoundTouchWebSocket.parse_notification_fuel f) d children =
            SoundTouchWebSocket.parse_children
              (SoundTouchWebSocket.parse_notification_fuel (Xml.sizeList children)) d
              children :=
          fun d => parse_children_congr _ _ d children hchild
        simp only [SoundTouchWebSocket.parse_notification]
        rw [hsz]
        simp only [SoundTouchWebSocket.parse_notification_fuel]
        simp only [hpc]

/-- A captured frame: an `updates` wrapper holding a volume event and a
bass event for device `9015A2C3D4E5`. -/
def sampleUpdatesFrame : Xml :=
  .elem "updates" [("deviceID", "9015A2C3D4E5")] none
    [.elem "volumeUpdated" [] none
      [.elem "actualvolume" [] (some "10") [],
       .elem "targetvolume" [] (some "10") [],
       .elem "muteenabled" [] (some "false") []],
     .elem "bassUpdated" [] none
      [.elem "actualbass" [] (some "0") [],
       .elem "targetbass" [] (some "0") []]]

/-- C5 counterexample: an `updates` wrapper with two child events (volume
and bass), with callbacks registered for both child event types, yields a
single queue entry keyed `multipleUpdates` — not one entry per child —
and invokes no callback keyed by either child's own event type. -/
theorem c5_multi_child_single_dispatch_counterexample :
    ((SoundTouchWebSocket.on_message ["volumeUpdated", "bassUpdated"]
        (some sampleUpdatesFrame)).1.map
      SoundTouchWebSocket.Notification.ntype) = ["multipleUpdates"] ∧
    (SoundTouchWebSocket.on_message ["volumeUpdated", "bassUpdated"]
        (some sampleUpdatesFrame)).2 = [] := by
  constructor <;> rfl

/-- C5 (amended): for an inbound `updates` wrapper, each child event is
decoded and tagged with the wrapper's `deviceID`; but dispatch is not per
child: at most one queue entry is produced per frame, every enqueued
notification carries the wrapper's device identifier, a wrapper with
exactly one decoded child dispatches that child itself, and a wrapper
with two or more decoded children dispatches a single aggregate entry of
type `multipleUpdates` holding all the tagged children, with the one
callback keyed `multipleUpdates` rather than the children's own types. -/
theorem c5_updates_wrapper_dispatch (cbs : List String)
    (attrs : List (String × String)) (text : Option String) (children : List Xml)
    (results : List SoundTouchWebSocket.Notification)
    (hres : SoundTouchWebSocket.parse_children SoundTouchWebSocket.parse_notification
        ((Xml.elem "updates" attrs text children).get "deviceID" "") children =
      .ok results) :
    (SoundTouchWebSocket.on_message cbs
        (some (.elem "updates" attrs text children))).1.length ≤ 1 ∧
    ((SoundTouchWebSocket.on_message cbs
        (some (.elem "updates" attrs text children))).1.all fun n =>
      n.deviceID == some ((Xml.elem "updates" attrs text children).get "deviceID" ""))
      = true ∧
    (results.length = 1 →
      (SoundTouchWebSocket.on_message cbs
        (some (.elem "updates" attrs text children))).1 = results) ∧
    (2 ≤ results.length →
      (SoundTouchWebSocket.on_message cbs
          (some (.elem "updates" attrs text children))).1 =
        [.mk "multipleUpdates" []
          (some ((Xml.elem "updates" attrs text children).get "deviceID" "")) results] ∧
      (SoundTouchWebSocket.on_message cbs
          (some (.elem "updates" attrs text children))).2 =
        if cbs.contains "multipleUpdates" then ["multipleUpdates"] else []) := by
  have hsz : Xml.size (Xml.elem "updates" attrs text children) =
      Xml.sizeList children + 1 := by
    simp [Xml.size]; omega
  have hpc : SoundTouchWebSocket.parse_children
      (SoundTouchWebSocket.parse_notification_fuel (Xml.sizeList children))
      ((Xml.elem "updates" attrs text children).get "deviceID" "") children =
      .ok results := by
    rw [parse_children_congr
      (SoundTouchWebSocket.parse_notification_fuel (Xml.sizeList children))
      SoundTouchWebSocket.parse_notification _ children
      (fun c hc => parse_notification_fuel_eq _ c (Xml.size_le_sizeList_of_mem hc))]
    exact hres
  have htags : ∀ n ∈ results,
      n.deviceID = some ((Xml.elem "updates" attrs text children).get "deviceID" "") :=
    parse_children_tags SoundTouchWebSocket.parse_notification _ children results hres
  rcases results with _ | ⟨r1, rest1⟩
  · have hpn : SoundTouchWebSocket.parse_notification
        (Xml.elem "updates" attrs text children) = .ok none := by
      simp only [SoundTouchWebSocket.parse_notification]
      rw [hsz]
      simp only [SoundTouchWebSocket.parse_notification_fuel]
      simp [hpc, Bind.bind, Except.bind, Pure.pure, Except.pure]
    simp only [SoundTouchWebSocket.on_message, hpn]
    refine ⟨by simp, by simp, ?_, ?_⟩ <;> intro h <;> simp at h
  · rcases rest1 with _ | ⟨r2, rest⟩
    · have hpn : SoundTouchWebSocket.parse_notification
          (Xml.elem "updates" attrs text children) = .ok (some r1) := by
        simp only [SoundTouchWebSocket.parse_notification]
        rw [hsz]
        simp only [SoundTouchWebSocket.parse_notification_fuel]
        simp [hpc, Bind.bind, Except.bind, Pure.pure, Except.pure]
      have hr : r1.deviceID =
          some ((Xml.elem "updates" attrs text children).get "deviceID" "") :=
        htags r1 (by simp)
      simp only [SoundTouchWebSocket.on_message, hpn]
      refine ⟨by simp, by simp [hr], fun _ => by simp, ?_⟩
      intro h
      simp at h
    · have hpn : SoundTouchWebSocket.parse_notification
          (Xml.elem "updates" attrs text children) =
          .ok (some (.mk "multipleUpdates" []
            (some ((Xml.elem "updates" attrs text children).get "deviceID" ""))
            (r1 :: r2 :: rest))) := by
        simp only [SoundTouchWebSocket.parse_notification]
        rw [hsz]
        simp only [SoundTouchWebSocket.parse_notification_fuel]
        simp [hpc, Bind.bind, Except.bind, Pure.pure, Except.pure]
      simp only [SoundTouchWebSocket.on_message, hpn]
      refine ⟨by simp, ?_, ?_, ?_⟩
      · simp [SoundTouchWebSocket.Notification.deviceID]
      · intro h
        simp at h
      · intro h
        exact ⟨by simp, by simp [SoundTouchWebSocket.Notification.ntype]⟩

/-- The decoded volume child of `sampleUpdatesFrame`, tagged with the
wrapper's device identifier. -/
def sampleVolumeNotification : SoundTouchWebSocket.Notification :=
  .mk "volumeUpdated"
    [("actualvolume", .i 10), ("targetvolume", .i 10), ("muteenabled", .b false)]
    (some "9015A2C3D4E5") []

/-- The decoded bass child of `sampleUpdatesFrame`, tagged with the
wrapper's device identifier. -/
def sampleBassNotification : SoundTouchWebSocket.Notification :=
  .mk "bassUpdated" [("actualbass", .i 0), ("targetbass", .i 0)]
    (some "9015A2C3D4E5") []

/-- C5 witness: the two-child sample frame produces at most one queue
entry, every enqueued notification carries the wrapper's device
identifier, and — since both children decode — the single entry is the
`multipleUpdates` aggregate, whose callback fires under that type. -/
theorem c5_updates_wrapper_dispatch_witness :
    (SoundTouchWebSocket.on_message ["multipleUpdates"]
        (some sampleUpdatesFrame)).1.length ≤ 1 ∧
    ((SoundTouchWebSocket.on_message ["multipleUpdates"]
        (some sampleUpdatesFrame)).1.all fun n =>
      n.deviceID == some (sampleUpdatesFrame.get "deviceID" "")) = true ∧
    (([sampleVolumeNotification, sampleBassNotification].length = 1) →
      (SoundTouchWebSocket.on_message ["multipleUpdates"]
        (some sampleUpdatesFrame)).1 =
        [sampleVolumeNotification, sampleBassNotification]) ∧
    (2 ≤ [sampleVolumeNotification, sampleBassNotification].length →
      (SoundTouchWebSocket.on_message ["multipleUpdates"]
          (some sampleUpdatesFrame)).1 =
        [.mk "multipleUpdates" [] (some (sampleUpdatesFrame.get "deviceID" ""))
          [sampleVolumeNotification, sampleBassNotification]] ∧
      (SoundTouchWebSocket.on_message ["multipleUpdates"]
          (some sampleUpdatesFrame)).2 =
        if List.contains ["multipleUpdates"] "multipleUpdates" then ["multipleUpdates"]
        else []) :=
  c5_updates_wrapper_dispatch ["multipleUpdates"] [("deviceID", "9015A2C3D4E5")] none
    [.elem "volumeUpdated" [] none
      [.elem "actualvolume" [] (some "10") [],
       .elem "targetvolume" [] (some "10") [],
       .elem "muteenabled" [] (some "false") []],
     .elem "bassUpdated" [] none
      [.elem "actualbass" [] (some "0") [],
       .elem "targetbass" [] (some "0") []]]
    [sampleVolumeNotification, sampleBassNotification] rfl
